import Mathlib

/-!
Verification of the JobFinder backend core (token service, auth middleware
chain, upload pipeline, orphan file sweeper, login) against its
natural-language specification.  Each definition is a shallow embedding of
the JavaScript source it names; machine-level concerns (HMAC signatures,
the filesystem, the Mongo database) are modelled symbolically but the
control flow and data flow of every translated function follow the source
line by line.
-/

namespace JobFinder

/-! ## Token service (src/auth/providers/jwt.js) -/

/-- Claims carried by a signed token.  `generateAuthToken` puts
`_id`, `role`, `isAdmin`, `name` and `iat` in the payload; the jsonwebtoken
library adds `exp` (computed from the payload `iat` when one is present),
`iss` and `aud` from the sign options. -/
structure JwtClaims where
  _id : String
  role : String
  isAdmin : Bool
  name : String
  iat : Nat
  exp : Nat
  iss : String
  aud : String
  deriving DecidableEq, Repr

/-- A signed token.  The HS256 signature is modelled symbolically: the
signature is valid for a verifying key exactly when that key equals the
key the token was signed with (`sigKey`). -/
structure SignedToken where
  claims : JwtClaims
  sigKey : String
  deriving DecidableEq, Repr

/-- View of a user document needed by `generateAuthToken`
(src/auth/providers/jwt.js lines 8-25) and by the middlewares: the fields
of src/DB/models/User.js that the auth code reads.  The Mongoose schema in
User.js declares no `isAdmin` path, so on a stored document `user.isAdmin`
is undefined; the embedded `isAdmin` field records the value a document
actually carries (`false` for every document the schema can store). -/
structure UserDoc where
  _id : String
  name : String
  email : String
  role : String
  isAdmin : Bool
  isActive : Bool
  password : String
  profilePicture : String
  resume : String
  deriving DecidableEq, Repr

/-- Translation of `generateAuthToken` (src/auth/providers/jwt.js lines
8-25): payload `_id`/`role`/`isAdmin`/`name` plus an explicit
`iat = floor(Date.now()/1000)`; sign options `expiresIn: '24h'`,
`issuer: 'jobfinder-app'`, `audience: 'jobfinder-users'`.  jsonwebtoken
computes `exp` from the payload `iat` when the payload provides one, so
`exp = iat + 86400`.  `nowSec` is the current clock in seconds. -/
def generateAuthToken (user : UserDoc) (secret : String) (nowSec : Nat) : SignedToken :=
  { claims :=
      { _id := user._id
        role := user.role
        isAdmin := user.isAdmin
        name := user.name
        iat := nowSec
        exp := nowSec + 86400
        iss := "jobfinder-app"
        aud := "jobfinder-users" }
    sigKey := secret }

/-- Outcome of `jwt.verify` as the source distinguishes it: success, or
one of the error classes the catch blocks branch on. -/
inductive JwtVerifyResult where
  | ok (claims : JwtClaims)
  | expired
  | invalid
  deriving DecidableEq, Repr

/-- Core of `jwt.verify(token, SECRET_KEY, {algorithms, issuer, audience})`
as called by `verifyToken` (src/auth/providers/jwt.js lines 27-49): the
signature must check out under `secret`, the token must not be expired
(jsonwebtoken raises TokenExpiredError when the clock timestamp is at or
past `exp`), and issuer and audience must equal the fixed option values.
The signature is checked first, then expiry, then the issuer/audience
claims, following the library's validation order. -/
def jwtVerifyFull (t : SignedToken) (secret : String) (nowSec : Nat) : JwtVerifyResult :=
  if t.sigKey ≠ secret then .invalid
  else if t.claims.exp ≤ nowSec then .expired
  else if t.claims.iss ≠ "jobfinder-app" ∨ t.claims.aud ≠ "jobfinder-users" then .invalid
  else .ok t.claims

/-- Translation of `verifyToken` (src/auth/providers/jwt.js lines 27-49)
restricted to its returned value: the decoded payload on success, `null`
(here `none`) on any verification error. -/
def verifyToken (t : SignedToken) (secret : String) (nowSec : Nat) : Option JwtClaims :=
  match jwtVerifyFull t secret nowSec with
  | .ok c => some c
  | _ => none

/-- Translation of `verifyToken` keeping the logger effect explicit: the
function threads the list of log lines written so far and returns the pair
(result, updated log).  On success nothing is logged; on failure the catch
block first calls `logger.error('Token verification error:', ...)` and then
one `logger.warn` chosen by the error's name. -/
def verifyTokenLogged (log : List String) (t : SignedToken) (secret : String)
    (nowSec : Nat) : Option JwtClaims × List String :=
  match jwtVerifyFull t secret nowSec with
  | .ok c => (some c, log)
  | .expired => (none, log ++ ["Token verification error:", "Token expired for user"])
  | .invalid => (none, log ++ ["Token verification error:", "Invalid token format"])

/-! ## Auth middleware chain -/

/-- Normalized identity view the middlewares attach to `req.user`. -/
structure ReqUser where
  _id : String
  name : String
  email : String
  role : String
  isAdmin : Bool
  deriving DecidableEq, Repr

/-- Outcome of running an auth middleware on a request: either the request
is admitted to the downstream handler (`next()` was called with `req.user`
set) or it was rejected with an HTTP status and message. -/
inductive AuthOutcome where
  | admitted (user : ReqUser)
  | rejected (status : Nat) (message : String)
  deriving DecidableEq, Repr

/-- Request headers as the middlewares read them: the token value carried
by `x-auth-token`, or by an `Authorization: Bearer` header, already
decoded; `none` models an absent header. -/
structure AuthRequest where
  xAuthToken : Option SignedToken
  bearerToken : Option SignedToken
  deriving DecidableEq, Repr

/-- Token extraction shared by both middlewares:
`req.header('x-auth-token') || req.header('Authorization')?.replace('Bearer ', '')`. -/
def extractToken (req : AuthRequest) : Option SignedToken :=
  req.xAuthToken <|> req.bearerToken

/-- Translation of the default `auth` middleware (src/auth/authService.js
lines 5-62), the one imported by userRoutes, fileRoutes, jobRoutes and
adminRoutes.  It extracts a token, runs `verifyToken`, re-checks `exp`
against the clock, checks the payload carries a truthy `_id` and `role`,
then attaches the payload to `req.user` and calls `next()`.  It performs
no database access: the user document is never loaded and `isActive` is
never consulted. -/
def authServiceAuth (req : AuthRequest) (secret : String) (nowSec : Nat) : AuthOutcome :=
  match extractToken req with
  | none => .rejected 401 "Authentication required - no token provided"
  | some t =>
    match verifyToken t secret nowSec with
    | none => .rejected 401 "Invalid or expired token"
    | some userInfo =>
      if userInfo.exp ≠ 0 ∧ userInfo.exp < nowSec then
        .rejected 401 "Token has expired"
      else if userInfo._id = "" ∨ userInfo.role = "" then
        .rejected 401 "Invalid token payload"
      else
        .admitted
          { _id := userInfo._id
            name := userInfo.name
            email := ""
            role := userInfo.role
            isAdmin := userInfo.isAdmin }

/-- Lookup by `_id`, modelling `User.findById`. -/
def findById (db : List UserDoc) (id : String) : Option UserDoc :=
  db.find? (fun u => u._id = id)

/-- Core of `jwt.verify(token, SECRET_KEY)` as called with no options by
the database-backed middleware (src/auth/providers/jwt.js lines 59-134):
only the signature and the expiry are checked; issuer and audience are not
validated because the call passes no `issuer`/`audience` options. -/
def jwtVerifyNoOpts (t : SignedToken) (secret : String) (nowSec : Nat) : JwtVerifyResult :=
  if t.sigKey ≠ secret then .invalid
  else if t.claims.exp ≤ nowSec then .expired
  else .ok t.claims

/-- Translation of the database-backed `auth` middleware
(src/auth/providers/jwt.js lines 59-134, imported by authRoutes as
auth/auth.js): after `jwt.verify` succeeds it loads the user by
`decoded.userId || decoded._id`, rejects 401 when the user is missing,
rejects 401 when `user.isActive` is false, and otherwise attaches the
normalized view (with `isAdmin: user.isAdmin || user.role === 'admin'`)
and calls `next()`. -/
def dbAuth (req : AuthRequest) (secret : String) (nowSec : Nat)
    (db : List UserDoc) : AuthOutcome :=
  match extractToken req with
  | none => .rejected 401 "Access denied. No token provided."
  | some t =>
    match jwtVerifyNoOpts t secret nowSec with
    | .expired => .rejected 401 "Token has expired. Please login again."
    | .invalid => .rejected 401 "Invalid token format."
    | .ok decoded =>
      match findById db decoded._id with
      | none => .rejected 401 "Token is not valid. User not found."
      | some user =>
        if user.isActive = false then
          .rejected 401 "Account is deactivated. Please contact support."
        else
          .admitted
            { _id := user._id
              name := user.name
              email := user.email
              role := user.role
              isAdmin := user.isAdmin || user.role == "admin" }

/-! ## Error plumbing (src/utils/handleErrors.js) and bcrypt helpers -/

/-- A JavaScript `Error` as the services use it: a message plus an
optional `status` property (absent until some handler sets it). -/
structure ErrObj where
  message : String
  status : Option Nat
  deriving DecidableEq, Repr

/-- Translation of `createError` (src/utils/handleErrors.js lines 4-8): it
prefixes the message with the validator name, defaults the status to 400,
and throws the error.  The returned value is the error object thrown. -/
def createError (validator : String) (e : ErrObj) : ErrObj :=
  { message := validator ++ " Error: " ++ e.message
    status := some (e.status.getD 400) }

/-- Symbolic model of `bcrypt.hashSync(password, 10)`
(src/users/helpers/bcrypt.js): hashes are injective images of passwords. -/
def generatePassword (password : String) : String :=
  "bcrypt$" ++ password

/-- Translation of `comparePasswords` / `bcrypt.compareSync(password,
cryptPassword)` (src/users/helpers/bcrypt.js with bcryptjs semantics):
when the stored hash argument is `undefined` (here `none`) bcryptjs throws
`Error("Illegal arguments: string, undefined")`; otherwise it reports
whether the password matches the hash. -/
def comparePasswords (password : String) (cryptPassword : Option String) :
    Except ErrObj Bool :=
  match cryptPassword with
  | none => .error { message := "Illegal arguments: string, undefined", status := none }
  | some h => .ok (h = generatePassword password)

/-! ## Login (src/users/models/userAccessDataService.js, src/unnamed/part_010) -/

/-- Result of a Mongoose `User.findOne({email})` query.  The schema marks
`password` with `select: false` (src/DB/models/User.js lines 24-29), so
unless a query opts back in with `.select('+password')` the returned
document's `password` property is `undefined`.  `loginUser` issues
`User.findOne({ email })` with no select, hence `password := none` here:
the stored hash is not part of the query result. -/
structure QueriedUser where
  doc : UserDoc
  password : Option String
  deriving DecidableEq, Repr

/-- Lookup by email, modelling `User.findOne({ email })` under the default
projection of src/DB/models/User.js (the `select: false` on `password`
strips the hash from the result). -/
def findOneByEmail (db : List UserDoc) (email : String) : Option QueriedUser :=
  (db.find? (fun u => u.email = email)).map (fun u => { doc := u, password := none })

/-- Value returned by a successful login: the token plus the public user
fields. -/
structure LoginSuccess where
  token : SignedToken
  userId : String
  userName : String
  userEmail : String
  userRole : String
  deriving DecidableEq, Repr

/-- Translation of `loginUser` (src/unnamed/part_010 lines 38-64).  An
unknown email throws `Error("Invalid email or password")` with status 401;
a found user has its password compared by `comparePasswords(password,
user.password)`; a `false` comparison throws the same 401 error.  Every
thrown error reaches the catch block, which hands it to
`createError("Authentication", error)` — and `createError` itself throws,
so the caller observes the prefixed error.  (The `status` argument the
catch passes is ignored: `createError` takes two parameters and recomputes
`error.status || 400`.) -/
def loginUser (db : List UserDoc) (email password : String)
    (secret : String) (nowSec : Nat) : Except ErrObj LoginSuccess :=
  match findOneByEmail db email with
  | none =>
    .error (createError "Authentication"
      { message := "Invalid email or password", status := some 401 })
  | some user =>
    match comparePasswords password user.password with
    | .error e => .error (createError "Authentication" e)
    | .ok false =>
      .error (createError "Authentication"
        { message := "Invalid email or password", status := some 401 })
    | .ok true =>
      .ok
        { token := generateAuthToken user.doc secret nowSec
          userId := user.doc._id
          userName := user.doc.name
          userEmail := user.doc.email
          userRole := user.doc.role }

/-- An HTTP response as `handleError` / `res.status(...).json(...)`
produce it: status code and body text. -/
structure HttpResponse where
  status : Nat
  body : String
  deriving DecidableEq, Repr

/-- Translation of the `POST /users/login` handler (src/users/routes/
userRoutes.js lines 59-78) after request-shape validation: it awaits
`loginUser`; the error thrown inside `loginUser` propagates to the catch
block, which responds `handleError(res, error.status || 500,
error.message)`; on success it responds 200. -/
def loginRoute (db : List UserDoc) (email password : String)
    (secret : String) (nowSec : Nat) : HttpResponse :=
  match loginUser db email password secret nowSec with
  | .error e => { status := e.status.getD 500, body := e.message }
  | .ok _ => { status := 200, body := "ok" }

/-! ## Admin role change (src/admin/models/adminDataService.js, the
document appended to src/utils/fileCleanup.js) -/

/-- Roles the `role` path of src/DB/models/User.js accepts
(lines 31-38): saving any other value fails enum validation. -/
def validRoles : List String := ["jobSeeker", "recruiter", "admin"]

/-- Translation of `updateUserRole` (src/utils/fileCleanup.js appended
admin data service, lines 90-106): load the user, throw 404 when missing,
assign `user.role = newRole`, `user.save()`.  Saving runs the schema
validators, so an out-of-enum role is rejected; no other field is touched —
in particular nothing writes `isAdmin` (the schema does not even declare
that path).  Returns the updated database and the re-fetched user. -/
def updateUserRole (db : List UserDoc) (userId newRole : String) :
    Except ErrObj (List UserDoc × UserDoc) :=
  match findById db userId with
  | none =>
    .error (createError "Database" { message := "User not found", status := some 404 })
  | some user =>
    if validRoles.contains newRole then
      let updated := { user with role := newRole }
      .ok (db.map (fun v => if v._id = userId then updated else v), updated)
    else
      .error (createError "Database"
        { message := "User validation failed", status := none })

/-! ## Upload destination names -/

/-- Translation of the `filename` callback of the active storage
configuration (src/middlewares/uploadMiddleware.js lines 36-44), the one
`fileRoutes` uses through `uploadProfilePicture`/`uploadResume`:
`` `${basename}-${userId}-${timestamp}${ext}` `` where `basename` is the
field name (`profilePicture` or `resume`), `userId` is `req.user._id`,
`timestamp` is `Date.now()` and `ext` is the original extension.  No
random component appears anywhere in the callback. -/
def storageFilename (fieldname userId : String) (timestamp : Nat) (ext : String) : String :=
  fieldname ++ "-" ++ userId ++ "-" ++ toString timestamp ++ ext

/-- Modelled from the spec's words (§4.3 step 3), for comparison with the
source: a destination name of the claimed collision-resistant form
`{purpose}-{ownerId}-{timestamp}-{random}{ext}`. -/
def specUploadName (purpose ownerId timestamp random ext : String) : String :=
  purpose ++ "-" ++ ownerId ++ "-" ++ timestamp ++ "-" ++ random ++ ext

/-- Modelled from the amended claim, for comparison with the source: the
destination name `{purpose}-{ownerId}-{timestamp}{ext}` with no random
component. -/
def specUploadNameNoRandom (purpose ownerId timestamp ext : String) : String :=
  purpose ++ "-" ++ ownerId ++ "-" ++ timestamp ++ ext

/-! ## File validation (src/services/fileValidationService.js, src/unnamed/part_000) -/

/-- The two upload purposes `validateFile` indexes its tables with. -/
inductive UploadType where
  | profilePicture
  | resume
  deriving DecidableEq, Repr

/-- Size caps of `validateFile`: 5 MiB for pictures, 10 MiB for resumes. -/
def maxSizeFor : UploadType → Nat
  | .profilePicture => 5 * 1024 * 1024
  | .resume => 10 * 1024 * 1024

/-- MIME allow-lists of `validateFile` (src/unnamed/part_000 lines 22-29). -/
def allowedMimes : UploadType → List String
  | .profilePicture => ["image/jpeg", "image/jpg", "image/png", "image/gif", "image/webp"]
  | .resume =>
      ["application/pdf", "application/msword",
       "application/vnd.openxmlformats-officedocument.wordprocessingml.document"]

/-- Character class `[a-zA-Z0-9\s\-_.()]` of the filename regex in
src/unnamed/part_000 line 37 (ASCII reading of `\s`). -/
def filenameClassChar (c : Char) : Bool :=
  c.isAlphanum || c = ' ' || c = '\t' || c = '\n' || c = '\x0b' || c = '\x0c' || c = '\r' ||
    c = '-' || c = '_' || c = '.' || c = '(' || c = ')'

/-- Extension alternation of the filename regex in src/unnamed/part_000
line 37: one pooled list serving both purposes. -/
def pooledExts : List String :=
  ["jpg", "jpeg", "png", "gif", "webp", "pdf", "doc", "docx"]

/-- Matcher for `/^[a-zA-Z0-9\s\-_.()]+\.(jpg|jpeg|png|gif|webp|pdf|doc|docx)$/i`
applied to a character list: some split point leaves a non-empty stem of
class characters, a literal dot, and a pooled extension up to the end of
the string, compared case-insensitively. -/
def filenameRegexAccepts (cs : List Char) : Bool :=
  (List.range cs.length).any fun i =>
    !(cs.take i).isEmpty && (cs.take i).all filenameClassChar &&
      decide ((cs.drop i).head? = some '.') &&
      pooledExts.any (fun e => decide ((cs.drop i).tail.map Char.toLower = e.data))

/-- Filename test of `validateFile`, on strings. -/
def filenameOk (s : String) : Bool :=
  filenameRegexAccepts s.data

/-- An uploaded file as multer presents it to the handlers. -/
structure UploadedFile where
  originalname : String
  mimetype : String
  size : Nat
  path : String
  deriving DecidableEq, Repr

/-- Translation of `validateFile` (src/unnamed/part_000): collect error
strings for, in order, an oversized file, a disallowed MIME type, and a
filename failing the security regex; an empty list means the file passed. -/
def validateFile (file : Option UploadedFile) (t : UploadType) : List String :=
  match file with
  | none => ["No file provided"]
  | some f =>
    (if f.size > maxSizeFor t then
       ["File too large. Maximum size: " ++ toString (maxSizeFor t / (1024 * 1024)) ++ "MB"]
     else []) ++
    (if (allowedMimes t).contains f.mimetype then []
     else ["Invalid file type. Allowed types: " ++ String.intercalate ", " (allowedMimes t)]) ++
    (if filenameOk f.originalname then []
     else ["Invalid filename. Use only letters, numbers, spaces, and common punctuation."])

/-- Modelled from the spec's words (§4.3 step 2), for comparison with the
source: the per-purpose extension lists (avatar: .jpg .jpeg .png .gif
.webp; resume: .pdf .doc .docx). -/
def specPurposeExts : UploadType → List String
  | .profilePicture => ["jpg", "jpeg", "png", "gif", "webp"]
  | .resume => ["pdf", "doc", "docx"]

/-- Modelled from the spec's words, for comparison with the source: the
character class `[A-Za-z0-9 _.()-]` of the claimed pattern (literal space
only). -/
def specClassChar (c : Char) : Bool :=
  c.isAlphanum || c = ' ' || c = '_' || c = '.' || c = '(' || c = ')' || c = '-'

/-- Modelled from the spec's words (§4.3 step 2), for comparison with the
source: the claimed filename pattern `^[A-Za-z0-9 _.()-]+\.(ext)$` where
`(ext)` ranges over exactly the allowed extensions of the upload's
purpose, case-insensitively. -/
def specPurposeFilenameOk (t : UploadType) (s : String) : Bool :=
  (List.range s.data.length).any fun i =>
    !(s.data.take i).isEmpty && (s.data.take i).all specClassChar &&
      decide ((s.data.drop i).head? = some '.') &&
      (specPurposeExts t).any (fun e => decide ((s.data.drop i).tail.map Char.toLower = e.data))

/-- Declarative reading of the pooled filename pattern: some decomposition
into a non-empty class-character stem, a dot, and a pooled extension. -/
def matchesPooledPattern (s : String) : Prop :=
  ∃ stem ext : List Char,
    s.data = stem ++ '.' :: ext ∧ stem ≠ [] ∧
      (∀ c ∈ stem, filenameClassChar c = true) ∧
      ext.map Char.toLower ∈ pooledExts.map String.data

/-! ## Orphan file sweeper (src/unnamed/part_026) -/

/-- Characters of the last `/`-separated segment: everything after the
last slash. -/
def lastSegment (cs : List Char) : List Char :=
  (cs.reverse.takeWhile (fun c => c ≠ '/')).reverse

/-- Model of `path.basename`: the last `/`-separated segment. -/
def basename (p : String) : String :=
  String.mk (lastSegment p.data)

/-- Prefix test on character lists (structural model of
`String.startsWith`). -/
def isCharListPre : List Char → List Char → Bool
  | [], _ => true
  | _ :: _, [] => false
  | p :: ps, c :: cs => (p = c) && isCharListPre ps cs

/-- Model of `s.startsWith pre`. -/
def strStartsWith (s pre : String) : Bool :=
  isCharListPre pre.data s.data

/-- Translation of `getSafeFilename` (src/unnamed/part_026 lines 55-63):
a falsy (empty) path yields nothing, otherwise the basename. -/
def getSafeFilename (p : String) : Option String :=
  if p = "" then none else some (basename p)

/-- Referenced-filename set of the sweep (src/unnamed/part_026 lines
82-103): basenames of every non-empty `profilePicture` or `resume` path
over all users, both purposes pooled into one set. -/
def userFileNames (db : List UserDoc) : List String :=
  db.flatMap fun u =>
    ((getSafeFilename u.profilePicture).map (fun s => [s])).getD [] ++
      ((getSafeFilename u.resume).map (fun s => [s])).getD []

/-- Skip predicate of the sweep loops (src/unnamed/part_026 lines 119 and
150): hidden files and system files are never considered for deletion. -/
def isHiddenOrSystem (f : String) : Bool :=
  strStartsWith f "." || strStartsWith f "desktop.ini" || strStartsWith f "Thumbs.db"

/-- One directory pass of `cleanupOrphanedFiles` (src/unnamed/part_026
lines 112-171) over an ideal filesystem (`safeDeleteFile` succeeds):
each listed name is skipped when hidden/system, kept when referenced, and
deleted otherwise.  Returns (remaining files, deleted count, skipped
count). -/
def sweepDir (refs : List String) : List String → List String × Nat × Nat
  | [] => ([], 0, 0)
  | f :: rest =>
    let r := sweepDir refs rest
    if isHiddenOrSystem f then (f :: r.1, r.2.1, r.2.2 + 1)
    else if refs.contains f then (f :: r.1, r.2.1, r.2.2)
    else (r.1, r.2.1 + 1, r.2.2)

/-- The purpose-scoped storage roots the sweep reconciles. -/
structure UploadTree where
  profiles : List String
  resumes : List String
  deriving DecidableEq, Repr

/-- Counters the sweep reports (src/unnamed/part_026 line 174). -/
structure SweepReport where
  deleted : Nat
  errors : Nat
  skipped : Nat
  deriving DecidableEq, Repr

/-- Translation of `cleanupOrphanedFiles` (src/unnamed/part_026 lines
65-187) over an ideal filesystem: build the referenced set from the
database, sweep `uploads/profiles` and `uploads/resumes`, and report the
summed counters (no per-file delete errors occur in the ideal model). -/
def cleanupOrphanedFiles (db : List UserDoc) (fs : UploadTree) :
    UploadTree × SweepReport :=
  let refs := userFileNames db
  let p := sweepDir refs fs.profiles
  let r := sweepDir refs fs.resumes
  ({ profiles := p.1, resumes := r.1 },
   { deleted := p.2.1 + r.2.1, errors := 0, skipped := p.2.2 + r.2.2 })

/-! ## Profile picture upload handler (src/users/routes/fileRoutes.js) -/

/-- Model of `fs.unlinkSync` on the set of stored relative paths. -/
def unlink (files : List String) (p : String) : List String :=
  files.filter (fun q => q ≠ p)

/-- The slice of state the `POST /profile/picture` handler touches: the
stored files (as relative paths) and the calling user's `profilePicture`
field (`""` models unset). -/
structure PicState where
  files : List String
  userProfilePicture : String
  deriving DecidableEq, Repr

/-- Response of the upload handler. -/
inductive UploadOutcome where
  | ok (newPath : String)
  | err (status : Nat) (message : String)
  deriving DecidableEq, Repr

/-- Translation of the `POST /profile/picture` handler body
(src/users/routes/fileRoutes.js lines 22-82), entered after multer has
written the new file at `f.path`.  Steps: reject when no file arrived;
run `validateFile` and on failure unlink the new file and answer 400;
unlink the old picture when the user has one and it exists on storage
(lines 42-49 — this happens before the update); then update the user's
`profilePicture` to the new relative path.  `dbFailure` carries the
message of the `findByIdAndUpdate` rejection when that `updateUser` call
fails (`none` = success): `updateUser` (part_010) catches it and hands it
to `createError("UserUpdate", error)`, which prefixes the message,
defaults the status to 400 and throws; the route's catch block then
unlinks the just-written file and answers `handleError(res,
error.status || 500, error.message)`.  On success the handler answers
200 with the new path.  The relative path recorded equals `f.path`
(paths are modelled relative to the app root, which is what
`path.relative` recovers). -/
def postProfilePicture (st : PicState) (file : Option UploadedFile)
    (dbFailure : Option String) : PicState × UploadOutcome :=
  match file with
  | none => (st, .err 400 "No profile picture uploaded")
  | some f =>
    let errs := validateFile (some f) .profilePicture
    if errs ≠ [] then
      ({ st with files := unlink st.files f.path }, .err 400 (String.intercalate ", " errs))
    else
      let st₁ :=
        if st.userProfilePicture ≠ "" ∧ st.files.contains st.userProfilePicture then
          { st with files := unlink st.files st.userProfilePicture }
        else st
      match dbFailure with
      | some msg =>
        let e := createError "UserUpdate" { message := msg, status := none }
        ({ st₁ with files := unlink st₁.files f.path },
         .err (e.status.getD 500) e.message)
      | none =>
        ({ st₁ with userProfilePicture := f.path }, .ok f.path)

/-! ## Concrete instances used by witnesses and counterexamples -/

/-- A representative stored jobseeker document. -/
def sampleJobseeker : UserDoc :=
  { _id := "u1", name := "Avery", email := "a@b.c", role := "jobSeeker", isAdmin := false,
    isActive := true, password := generatePassword "pw123456",
    profilePicture := "uploads/profiles/p1.png", resume := "" }

/-- A deactivated account: same shape, `isActive := false`. -/
def sampleDeactivated : UserDoc :=
  { sampleJobseeker with _id := "u2", email := "d@b.c", isActive := false }

/-- A token the server issued for the deactivated account at time 0. -/
def sampleToken : SignedToken :=
  generateAuthToken sampleDeactivated "server-secret" 0

/-- The stored-record invariant claimed by the spec (§3):
`role = admin ⇔ isAdmin = true`. -/
def roleAdminConsistent (u : UserDoc) : Prop :=
  u.role = "admin" ↔ u.isAdmin = true

/-- The record produced by promoting `sampleJobseeker` to admin. -/
def promotedSample : UserDoc :=
  { sampleJobseeker with role := "admin" }

/-- A token whose signature does not verify under the server secret. -/
def badToken : SignedToken :=
  { sampleToken with sigKey := "other-key" }

/-- A storage tree holding a referenced picture, an orphaned picture, a
hidden entry and an orphaned resume. -/
def sampleTree : UploadTree :=
  { profiles := ["p1.png", "orphan.png", ".hidden"], resumes := ["r.pdf"] }

end JobFinder

namespace JobFinder

/-! ## Claim C5: token lifetime -/

/-- C5: every issued token embeds an expiry exactly 24 hours (86400
seconds) after its issuance time, `verifyToken` succeeds on it at any
clock value before that expiry, and fails once the expiry has elapsed. -/
theorem C5_token_expiry (u : UserDoc) (secret : String) (nowSec t₁ t₂ : Nat)
    (h₁ : t₁ < nowSec + 86400) (h₂ : nowSec + 86400 ≤ t₂) :
    (generateAuthToken u secret nowSec).claims.exp
        = (generateAuthToken u secret nowSec).claims.iat + 86400
    ∧ verifyToken (generateAuthToken u secret nowSec) secret t₁
        = some (generateAuthToken u secret nowSec).claims
    ∧ verifyToken (generateAuthToken u secret nowSec) secret t₂ = none := by
  refine ⟨rfl, ?_, ?_⟩
  · simp only [verifyToken, jwtVerifyFull, generateAuthToken]
    rw [if_neg (by simp), if_neg (by simpa using Nat.not_le.mpr h₁), if_neg (by simp)]
  · simp only [verifyToken, jwtVerifyFull, generateAuthToken]
    rw [if_neg (by simp), if_pos (by simpa using h₂)]

/-- Witness for C5 at concrete values. -/
theorem C5_witness :
    verifyToken (generateAuthToken sampleJobseeker "server-secret" 0) "server-secret" 7
        = some (generateAuthToken sampleJobseeker "server-secret" 0).claims
    ∧ verifyToken (generateAuthToken sampleJobseeker "server-secret" 0) "server-secret" 86400
        = none :=
  ⟨(C5_token_expiry sampleJobseeker "server-secret" 0 7 86400 (by decide) (by decide)).2.1,
   (C5_token_expiry sampleJobseeker "server-secret" 0 7 86400 (by decide) (by decide)).2.2⟩

/-! ## Claim C7: upload destination names -/

/-- C7 counterexample: the destination name the active storage
configuration generates cannot be decomposed as the claimed
`{purpose}-{ownerId}-{timestamp}-{random}{ext}` — no choice of random
component reproduces it, because the code writes no random component. -/
theorem C7_counterexample :
    ¬ ∃ r : String,
        storageFilename "profilePicture" "u1" 1000 ".png"
          = specUploadName "profilePicture" "u1" "1000" r ".png" := by
  rintro ⟨r, h⟩
  unfold storageFilename specUploadName at h
  have hlen := congrArg String.length h
  simp only [String.length_append] at hlen
  have e1 : ("profilePicture" : String).length = 14 := rfl
  have e2 : ("-" : String).length = 1 := rfl
  have e3 : ("u1" : String).length = 2 := rfl
  have e4 : (toString (1000 : Nat)).length = 4 := rfl
  have e5 : ("1000" : String).length = 4 := rfl
  have e6 : (".png" : String).length = 4 := rfl
  rw [e1, e2, e3, e4, e5, e6] at hlen
  omega

/-- C7 as amended: the destination name is
`{purpose}-{ownerId}-{timestamp}{ext}` — owner id and timestamp are
embedded, but no random component exists, so two uploads with equal
purpose, owner and timestamp receive the same name. -/
theorem C7_no_random_component (field uid : String) (ts : Nat) (ext : String) :
    storageFilename field uid ts ext = specUploadNameNoRandom field uid (toString ts) ext :=
  rfl

/-! ## Claim C8: purity of verification -/

/-- C8 counterexample: `verifyToken` is not free of side effects — on a
token whose signature fails, the source logs through `logger.error` and
`logger.warn`, which the log-explicit translation records as a non-empty
log delta. -/
theorem C8_counterexample :
    (verifyTokenLogged [] badToken "server-secret" 5).2 ≠ []
    ∧ (verifyTokenLogged [] badToken "server-secret" 5).1 = none := by
  constructor
  · decide
  · decide

/-- C8 as amended: the verification result is a deterministic function of
(token, secret, clock) alone — it is independent of any prior log state,
agrees with the pure `verifyToken`, and the only effect of a call is an
append to the log. -/
theorem C8_verify_result_pure (log₁ log₂ : List String) (t : SignedToken)
    (secret : String) (nowSec : Nat) :
    (verifyTokenLogged log₁ t secret nowSec).1 = (verifyTokenLogged log₂ t secret nowSec).1
    ∧ (verifyTokenLogged log₁ t secret nowSec).1 = verifyToken t secret nowSec
    ∧ ∃ delta : List String,
        (verifyTokenLogged log₁ t secret nowSec).2 = log₁ ++ delta := by
  unfold verifyTokenLogged verifyToken
  cases jwtVerifyFull t secret nowSec with
  | ok c => exact ⟨rfl, rfl, [], by simp⟩
  | expired => exact ⟨rfl, rfl, ["Token verification error:", "Token expired for user"], rfl⟩
  | invalid => exact ⟨rfl, rfl, ["Token verification error:", "Invalid token format"], rfl⟩

/-! ## Claim C10: login failure indistinguishability -/

/-- C10: probing the login route distinguishes a registered email from an
unregistered one.  Because `User.findOne({email})` omits the password hash
(the schema marks it `select: false`), `bcrypt.compareSync` throws
`Illegal arguments` for every registered email, producing a 400 response
that differs from the 401 `Invalid email or password` response of the
unregistered case. -/
theorem C10_login_probe_distinguishes :
    loginRoute [sampleJobseeker] "a@b.c" "pw123456" "server-secret" 0
        = { status := 400, body := "Authentication Error: Illegal arguments: string, undefined" }
    ∧ loginRoute [sampleJobseeker] "zz@b.c" "pw123456" "server-secret" 0
        = { status := 401, body := "Authentication Error: Invalid email or password" }
    ∧ loginRoute [sampleJobseeker] "a@b.c" "pw123456" "server-secret" 0
        ≠ loginRoute [sampleJobseeker] "zz@b.c" "pw123456" "server-secret" 0 := by
  refine ⟨rfl, rfl, ?_⟩
  decide

/-! ## Claim C2: role/isAdmin consistency -/

/-- C2 counterexample: the admin-only role change writes `role` and
nothing else; promoting `sampleJobseeker` to admin leaves
`isAdmin = false` on the stored record, so the claimed invariant
`role = admin ⇔ isAdmin = true` fails after the write. -/
theorem C2_counterexample :
    updateUserRole [sampleJobseeker] "u1" "admin" = .ok ([promotedSample], promotedSample)
    ∧ promotedSample.role = "admin"
    ∧ ¬ roleAdminConsistent promotedSample := by
  refine ⟨rfl, rfl, ?_⟩
  intro h
  exact absurd (h.mp rfl) (by decide)

/-- C2 as amended: a role change updates only the `role` field of the
target record — `isAdmin`, `isActive` and `_id` are untouched (the schema
declares no `isAdmin` path and `updateUserRole` writes none), so the
stored record does not regain `role = admin ⇔ isAdmin = true`. -/
theorem C2_role_change_updates_only_role (db : List UserDoc) (id r : String) (u₀ : UserDoc)
    (h₀ : findById db id = some u₀) (hr : validRoles.contains r = true) :
    ∀ db' u, updateUserRole db id r = .ok (db', u) →
      u.role = r ∧ u.isAdmin = u₀.isAdmin ∧ u.isActive = u₀.isActive ∧ u._id = u₀._id := by
  intro db' u h
  have hval : updateUserRole db id r
      = .ok (db.map (fun v => if v._id = id then { u₀ with role := r } else v),
             { u₀ with role := r }) := by
    unfold updateUserRole
    rw [h₀]
    have hr' : r ∈ validRoles := by simpa using hr
    simp [hr']
  rw [hval] at h
  simp only [Except.ok.injEq, Prod.mk.injEq] at h
  obtain ⟨h₁, h₂⟩ := h
  subst h₂
  exact ⟨rfl, rfl, rfl, rfl⟩

/-- Witness for C2's amended theorem at a concrete promotion. -/
theorem C2_witness :
    promotedSample.role = "admin" ∧ promotedSample.isAdmin = sampleJobseeker.isAdmin :=
  have h := C2_role_change_updates_only_role [sampleJobseeker] "u1" "admin" sampleJobseeker
    rfl rfl [promotedSample] promotedSample rfl
  ⟨h.1, h.2.1⟩

/-! ## Claim C1: identity load in the auth middleware chain -/

/-- C1 counterexample: the default middleware (`authService.js`), wired on
userRoutes, fileRoutes, jobRoutes and adminRoutes, admits a request whose
token verifies without ever loading the identity: here the account the
token names is deactivated (`isActive = false`), yet the request is
admitted to the handler. -/
theorem C1_counterexample :
    authServiceAuth { xAuthToken := some sampleToken, bearerToken := none } "server-secret" 100
        = .admitted { _id := "u2", name := "Avery", email := "", role := "jobSeeker", isAdmin := false }
    ∧ sampleDeactivated.isActive = false := by
  exact ⟨rfl, rfl⟩

/-- C1 as amended: only the database-backed middleware (auth/auth.js, the
one authRoutes imports) performs the identity load: when the token
verifies it rejects 401 for a missing subject, rejects 401 (deactivated)
when `isActive` is false, and admits only subjects that exist and are
active. -/
theorem C1_db_auth_identity_gate (req : AuthRequest) (secret : String) (nowSec : Nat)
    (db : List UserDoc) (t : SignedToken) (claims : JwtClaims)
    (hTok : extractToken req = some t)
    (hVer : jwtVerifyNoOpts t secret nowSec = .ok claims) :
    (findById db claims._id = none →
        dbAuth req secret nowSec db = .rejected 401 "Token is not valid. User not found.")
    ∧ (∀ u, findById db claims._id = some u → u.isActive = false →
        dbAuth req secret nowSec db
          = .rejected 401 "Account is deactivated. Please contact support.")
    ∧ (∀ ru, dbAuth req secret nowSec db = .admitted ru →
        ∃ u, findById db claims._id = some u ∧ u.isActive = true) := by
  refine ⟨?_, ?_, ?_⟩
  · intro h
    simp [dbAuth, hTok, hVer, h]
  · intro u hu hact
    simp [dbAuth, hTok, hVer, hu, hact]
  · intro ru h
    simp only [dbAuth, hTok, hVer] at h
    cases hfind : findById db claims._id with
    | none => rw [hfind] at h; simp at h
    | some u =>
      rw [hfind] at h
      by_cases hact : u.isActive = false
      · simp [hact] at h
      · exact ⟨u, rfl, by simpa using hact⟩

/-- Witness for C1's amended theorem: the deactivated account is rejected
401 by the database-backed middleware. -/
theorem C1_witness :
    dbAuth { xAuthToken := some sampleToken, bearerToken := none } "server-secret" 100
        [sampleDeactivated]
      = .rejected 401 "Account is deactivated. Please contact support." :=
  (C1_db_auth_identity_gate { xAuthToken := some sampleToken, bearerToken := none }
      "server-secret" 100 [sampleDeactivated] sampleToken sampleToken.claims rfl rfl).2.1
    sampleDeactivated rfl rfl

/-! ## Claims C4 and C9: the orphan sweep -/

/-- Helper: a sweep pass keeps exactly the hidden/system entries and the
referenced files, in order. -/
theorem sweepDir_remaining (refs : List String) (l : List String) :
    (sweepDir refs l).1 = l.filter (fun f => isHiddenOrSystem f || refs.contains f) := by
  induction l with
  | nil => rfl
  | cons f rest ih =>
    by_cases h1 : isHiddenOrSystem f = true
    · simp [sweepDir, h1, ih, List.filter_cons]
    · rw [Bool.not_eq_true] at h1
      by_cases h2 : f ∈ refs
      · simp [sweepDir, h1, h2, ih, List.filter_cons]
      · simp [sweepDir, h1, h2, ih, List.filter_cons]

/-- Helper: a sweep pass over a directory whose every file is hidden,
system or referenced deletes nothing. -/
theorem sweepDir_deleted_zero (refs : List String) (l : List String)
    (h : ∀ f ∈ l, isHiddenOrSystem f = true ∨ refs.contains f = true) :
    (sweepDir refs l).2.1 = 0 := by
  induction l with
  | nil => rfl
  | cons f rest ih =>
    have hrest : ∀ g ∈ rest, isHiddenOrSystem g = true ∨ refs.contains g = true :=
      fun g hg => h g (List.mem_cons_of_mem _ hg)
    rcases h f (List.mem_cons_self _ _) with h1 | h1
    · simp [sweepDir, h1, ih hrest]
    · have h1' : f ∈ refs := by simpa using h1
      by_cases h2 : isHiddenOrSystem f = true <;> simp [sweepDir, h2, h1', ih hrest]

/-- C4: in each purpose-scoped root, a non-hidden non-system listed file
survives the sweep exactly when its name is in the referenced set (so it
is deleted exactly when it is not referenced by any identity's avatar or
resume path), and hidden/system entries always survive. -/
theorem C4_sweep_deletes_exactly_orphans (db : List UserDoc) (fs : UploadTree) (f : String) :
    (f ∈ fs.profiles → isHiddenOrSystem f = false →
        (f ∉ (cleanupOrphanedFiles db fs).1.profiles ↔ f ∉ userFileNames db))
    ∧ (f ∈ fs.profiles → isHiddenOrSystem f = true →
        f ∈ (cleanupOrphanedFiles db fs).1.profiles)
    ∧ (f ∈ fs.resumes → isHiddenOrSystem f = false →
        (f ∉ (cleanupOrphanedFiles db fs).1.resumes ↔ f ∉ userFileNames db))
    ∧ (f ∈ fs.resumes → isHiddenOrSystem f = true →
        f ∈ (cleanupOrphanedFiles db fs).1.resumes) := by
  have hp : (cleanupOrphanedFiles db fs).1.profiles
      = fs.profiles.filter (fun g => isHiddenOrSystem g || (userFileNames db).contains g) := by
    simp [cleanupOrphanedFiles, sweepDir_remaining]
  have hq : (cleanupOrphanedFiles db fs).1.resumes
      = fs.resumes.filter (fun g => isHiddenOrSystem g || (userFileNames db).contains g) := by
    simp [cleanupOrphanedFiles, sweepDir_remaining]
  refine ⟨?_, ?_, ?_, ?_⟩ <;> intro hmem hflag
  · rw [hp]; simp [List.mem_filter, hmem, hflag]
  · rw [hp]; simp [List.mem_filter, hmem, hflag]
  · rw [hq]; simp [List.mem_filter, hmem, hflag]
  · rw [hq]; simp [List.mem_filter, hmem, hflag]

/-- Witness for C4: in the sample tree, the unreferenced `orphan.png` is
gone after the sweep. -/
theorem C4_witness :
    "orphan.png" ∉ userFileNames [sampleJobseeker]
    ∧ "orphan.png" ∉ (cleanupOrphanedFiles [sampleJobseeker] sampleTree).1.profiles :=
  ⟨by decide,
   ((C4_sweep_deletes_exactly_orphans [sampleJobseeker] sampleTree "orphan.png").1
      (by decide) (by decide)).mpr (by decide)⟩

/-- C9: the sweep is idempotent on the storage tree — with the database
unchanged, a second run immediately after a first deletes zero files. -/
theorem C9_sweep_idempotent (db : List UserDoc) (fs : UploadTree) :
    (cleanupOrphanedFiles db (cleanupOrphanedFiles db fs).1).2.deleted = 0 := by
  have key : ∀ l : List String,
      (sweepDir (userFileNames db) ((sweepDir (userFileNames db) l).1)).2.1 = 0 := by
    intro l
    apply sweepDir_deleted_zero
    intro f hf
    rw [sweepDir_remaining] at hf
    have hfm := List.mem_filter.mp hf
    simpa using hfm.2
  simp [cleanupOrphanedFiles, key]

/-! ## Claim C3: upload compensation -/

/-- C3 counterexample: a failed upload does leave a dangling reference.
The handler deletes the old picture (fileRoutes.js lines 42-49) before
the `updateUser` call (lines 52-61); when that update fails, the new file
is unlinked but the stored `profilePicture` still points at the
just-deleted old file.  Concretely: the user's picture is `old.png`, both
`old.png` and the freshly written `new.png` are on storage, the update
fails — afterwards the reference still reads `old.png` while neither
`old.png` nor `new.png` exists on storage, and the response is the 400
persistence error (`createError` defaults the status to 400, not 500). -/
theorem C3_counterexample :
    (postProfilePicture
        { files := ["uploads/profiles/old.png", "uploads/profiles/new.png"],
          userProfilePicture := "uploads/profiles/old.png" }
        (some { originalname := "me.png", mimetype := "image/png", size := 100,
                path := "uploads/profiles/new.png" })
        (some "connection lost")).1.userProfilePicture
      = "uploads/profiles/old.png"
    ∧ "uploads/profiles/old.png" ∉
        (postProfilePicture
          { files := ["uploads/profiles/old.png", "uploads/profiles/new.png"],
            userProfilePicture := "uploads/profiles/old.png" }
          (some { originalname := "me.png", mimetype := "image/png", size := 100,
                  path := "uploads/profiles/new.png" })
          (some "connection lost")).1.files
    ∧ (postProfilePicture
        { files := ["uploads/profiles/old.png", "uploads/profiles/new.png"],
          userProfilePicture := "uploads/profiles/old.png" }
        (some { originalname := "me.png", mimetype := "image/png", size := 100,
                path := "uploads/profiles/new.png" })
        (some "connection lost")).2
      = .err 400 "UserUpdate Error: connection lost" := by
  refine ⟨?_, ?_, ?_⟩ <;> decide

/-- C3 as amended: once validation has passed and the new file is on
storage, a failing reference update makes the handler delete the
just-written file (no orphaned new file) and answer the persistence
error — status 400 with the `UserUpdate Error:` message, since
`createError` defaults the status — while the stored reference is left
unchanged; but because the old picture was already deleted before the
update, that unchanged reference dangles at a file no longer on storage
whenever the user had one there.  A successful update answers 200 with
the new relative path, which is then both referenced and present. -/
theorem C3_upload_compensation (st : PicState) (f : UploadedFile) (msg : String)
    (hval : validateFile (some f) .profilePicture = [])
    (hmem : f.path ∈ st.files) (hnew : f.path ≠ st.userProfilePicture) :
    ((postProfilePicture st (some f) (some msg)).2
        = .err 400 ("UserUpdate Error: " ++ msg)
      ∧ f.path ∉ (postProfilePicture st (some f) (some msg)).1.files
      ∧ (postProfilePicture st (some f) (some msg)).1.userProfilePicture
          = st.userProfilePicture
      ∧ (st.userProfilePicture ≠ "" → st.userProfilePicture ∈ st.files →
          st.userProfilePicture ∉ (postProfilePicture st (some f) (some msg)).1.files))
    ∧ ((postProfilePicture st (some f) none).2 = .ok f.path
      ∧ (postProfilePicture st (some f) none).1.userProfilePicture = f.path
      ∧ f.path ∈ (postProfilePicture st (some f) none).1.files) := by
  by_cases hold : st.userProfilePicture ≠ "" ∧ st.files.contains st.userProfilePicture
  · obtain ⟨holdne, holdc⟩ := hold
    have holdmem : st.userProfilePicture ∈ st.files := by simpa using holdc
    refine ⟨⟨?_, ?_, ?_, ?_⟩, ?_, ?_, ?_⟩ <;>
      simp [postProfilePicture, hval, holdne, holdmem, unlink, createError,
        List.mem_filter, hmem, hnew]
  · have hold' : ¬(¬st.userProfilePicture = "" ∧ st.userProfilePicture ∈ st.files) := by
      simpa using hold
    refine ⟨⟨?_, ?_, ?_, ?_⟩, ?_, ?_, ?_⟩ <;>
      simp [postProfilePicture, hval, hold', unlink, createError,
        List.mem_filter, hmem, hnew]
    intro h1 h2
    exact absurd ⟨h1, h2⟩ hold'

/-- Witness for C3's amended theorem at a concrete upload with an old
picture in place: the failed update leaves the old file deleted (the
reference dangles) and the successful update returns the new path. -/
theorem C3_witness :
    "uploads/profiles/old.png" ∉
      (postProfilePicture
        { files := ["uploads/profiles/old.png", "uploads/profiles/new.png"],
          userProfilePicture := "uploads/profiles/old.png" }
        (some { originalname := "me.png", mimetype := "image/png", size := 100,
                path := "uploads/profiles/new.png" })
        (some "connection lost")).1.files
    ∧ (postProfilePicture
        { files := ["uploads/profiles/old.png", "uploads/profiles/new.png"],
          userProfilePicture := "uploads/profiles/old.png" }
        (some { originalname := "me.png", mimetype := "image/png", size := 100,
                path := "uploads/profiles/new.png" }) none).2
      = .ok "uploads/profiles/new.png" :=
  have h := C3_upload_compensation
    { files := ["uploads/profiles/old.png", "uploads/profiles/new.png"],
      userProfilePicture := "uploads/profiles/old.png" }
    { originalname := "me.png", mimetype := "image/png", size := 100,
      path := "uploads/profiles/new.png" }
    "connection lost"
    (by decide) (by decide) (by decide)
  ⟨h.1.2.2.2 (by decide) (by decide), h.2.1⟩

/-! ## Claim C6: filename validation -/

/-- Helper: the executable matcher for the regex of `validateFile`
accepts exactly the strings decomposing into a non-empty class-character
stem, a literal dot, and one of the pooled extensions compared
case-insensitively. -/
theorem filenameRegexAccepts_iff (cs : List Char) :
    filenameRegexAccepts cs = true ↔
      ∃ stem ext : List Char, cs = stem ++ '.' :: ext ∧ stem ≠ [] ∧
        (∀ c ∈ stem, filenameClassChar c = true) ∧
        ext.map Char.toLower ∈ pooledExts.map String.data := by
  unfold filenameRegexAccepts
  rw [List.any_eq_true]
  constructor
  · rintro ⟨i, hiRange, hcond⟩
    simp only [Bool.and_eq_true, Bool.not_eq_true', decide_eq_true_eq,
      List.any_eq_true] at hcond
    obtain ⟨⟨⟨hne, hall⟩, hdot⟩, e, heMem, hext⟩ := hcond
    have hdrop : cs.drop i = '.' :: (cs.drop i).tail := by
      cases hd : cs.drop i with
      | nil => rw [hd] at hdot; simp at hdot
      | cons a t =>
        rw [hd] at hdot
        simp only [List.head?_cons, Option.some.injEq] at hdot
        simp [hdot]
    refine ⟨cs.take i, (cs.drop i).tail, ?_, ?_, ?_, ?_⟩
    · conv_lhs => rw [← List.take_append_drop i cs, hdrop]
    · intro hcontra
      rw [hcontra] at hne
      simp at hne
    · exact List.all_eq_true.mp hall
    · exact List.mem_map.mpr ⟨e, heMem, hext.symm⟩
  · rintro ⟨stem, ext, hcs, hne, hall, hmem⟩
    obtain ⟨e, heMem, heEq⟩ := List.mem_map.mp hmem
    have htake : cs.take stem.length = stem := by
      rw [hcs]; exact List.take_left _ _
    have hdrop : cs.drop stem.length = '.' :: ext := by
      rw [hcs]; exact List.drop_left _ _
    refine ⟨stem.length, ?_, ?_⟩
    · rw [List.mem_range, hcs]
      simp only [List.length_append, List.length_cons]
      omega
    · simp only [Bool.and_eq_true, Bool.not_eq_true', decide_eq_true_eq,
        List.any_eq_true]
      refine ⟨⟨⟨?_, ?_⟩, ?_⟩, e, heMem, ?_⟩
      · rw [htake]
        cases stem with
        | nil => exact absurd rfl hne
        | cons a t => rfl
      · rw [htake]
        exact List.all_eq_true.mpr hall
      · simp [hdrop]
      · rw [hdrop]
        exact heEq.symm

/-- C6 counterexample: a resume upload with the filename `cv.png` and a
PDF MIME type passes `validateFile` without any error, although the
purpose-specific pattern of the claim (extension ranging over .pdf .doc
.docx for resumes) rejects that filename — the filename check pools the
extensions of both purposes instead of restricting to the upload's
purpose. -/
theorem C6_counterexample :
    validateFile
        (some { originalname := "cv.png", mimetype := "application/pdf",
                size := 100, path := "uploads/resumes/x.png" }) .resume = []
    ∧ specPurposeFilenameOk .resume "cv.png" = false := by
  constructor
  · decide
  · decide

/-- C6 as amended: `validateFile` accepts a file exactly when its size is
within the purpose's cap, its MIME type is in the purpose's allow-list,
and its original filename matches
`^[a-zA-Z0-9\s\-_.()]+\.(jpg|jpeg|png|gif|webp|pdf|doc|docx)$`
case-insensitively — the extension alternation is pooled over both
purposes (and the class admits any whitespace), so the filename check
itself enforces no per-purpose extension restriction. -/
theorem C6_validateFile_characterization (f : UploadedFile) (t : UploadType) :
    validateFile (some f) t = []
      ↔ (f.size ≤ maxSizeFor t ∧ f.mimetype ∈ allowedMimes t
          ∧ matchesPooledPattern f.originalname) := by
  have hfn : filenameOk f.originalname = true ↔ matchesPooledPattern f.originalname :=
    filenameRegexAccepts_iff f.originalname.data
  unfold validateFile
  by_cases hs : f.size > maxSizeFor t <;>
    by_cases hm : f.mimetype ∈ allowedMimes t <;>
      by_cases hf : filenameOk f.originalname = true <;>
        simp [hs, hm, hf, ← hfn, Nat.not_lt.mp, List.append_eq_nil]

end JobFinder
